import Mathlib

/-!
Shallow embedding of the zoozoo multi-agent routing system.

External collaborators (Bedrock model invocation, DynamoDB, S3, SNS,
`json.loads` from the Python standard library) are modelled as explicit
outcome values or abstract functions passed into each definition; the
control flow, string processing and data shaping of the repository's own
code are translated directly from the source files.  Side effects on the
notification channel and on the model are recorded in an event list.
-/

namespace Zoozoo

/-! ## Python string primitives -/

/-- The `\x7b` character, written via its code point. -/
def lbrace : Char := Char.ofNat 123

/-- The `\x7d` character, written via its code point. -/
def rbrace : Char := Char.ofNat 125

/-- Python `pat in s` substring containment. -/
def containsSub (s pat : String) : Bool := decide (pat.toList <:+: s.toList)

/-- Python truthiness of an optional string: `None` and `""` are falsy. -/
def pyTruthy : Option String → Bool
  | Option.none => false
  | Option.some s => s ≠ ""

/-- Python `s.lower()` (ASCII case folding, as `str.lower` restricted to
the characters the source manipulates). -/
def pyLower (s : String) : String := String.mk (s.toList.map Char.toLower)

/-- Whitespace tokenizer: Python `s.split()` drops empty fields. -/
def tokensAux : List Char → List Char → List String
  | [], cur => if cur.isEmpty then [] else [String.mk cur.reverse]
  | c :: cs, cur =>
    if c.isWhitespace then
      (if cur.isEmpty then tokensAux cs [] else String.mk cur.reverse :: tokensAux cs [])
    else tokensAux cs (c :: cur)

/-- Python `s.lower().split()`: lowercase, split on whitespace, drop empties. -/
def pyTokens (s : String) : List String := tokensAux (pyLower s).toList []

/-- Python `set(s.lower().split())`, as a duplicate-free token list. -/
def termSet (s : String) : List String := (pyTokens s).dedup

/-- `len(set(q.lower().split()).intersection(set(c.lower().split())))`. -/
def overlapCount (q c : String) : Nat :=
  ((termSet q).filter (fun t => (termSet c).contains t)).length

/-- Index of the first occurrence of `c` (Python `s.find(c)` when it succeeds). -/
def firstIdx (c : Char) (l : List Char) : Option Nat := l.findIdx? (fun x => x == c)

/-- Index of the last occurrence of `c` (Python `s.rfind(c)` when it succeeds). -/
def lastIdx (c : Char) (l : List Char) : Option Nat :=
  match (l.reverse).findIdx? (fun x => x == c) with
  | Option.none => Option.none
  | Option.some i => Option.some (l.length - 1 - i)

/-- The brace-extraction idiom used throughout the source:
`content[content.find("\x7b") : content.rfind("\x7d") + 1]`, attempted only
when `find` succeeds and `rfind + 1 > find`. -/
def extractJsonSub (content : String) : Option String :=
  let l := content.toList
  match firstIdx lbrace l with
  | Option.none => Option.none
  | Option.some s =>
    match lastIdx rbrace l with
    | Option.none => Option.none
    | Option.some e =>
      if e + 1 > s then Option.some (String.mk ((l.drop s).take (e + 1 - s)))
      else Option.none

/-! ## Python values, dicts and errors -/

/-- A Python value, as far as the claims need it. -/
inductive PyVal where
  | str (s : String)
  | bool (b : Bool)
  | int (n : Int)
  | list (xs : List PyVal)
  | dict (fields : List (String × PyVal))
  | pynone

/-- A Python dict with string keys, in insertion order. -/
abbrev PyDict := List (String × PyVal)

/-- `d.get(k)` / `d[k]` lookup. -/
def dget (d : PyDict) (k : String) : Option PyVal := List.lookup k d

/-- Test whether a value is a given string (Python `v == "s"`). -/
def isStrVal (v : PyVal) (s : String) : Bool :=
  match v with
  | PyVal.str t => t = s
  | _ => false

/-- Python truthiness of a value. -/
def pyTruthyVal : PyVal → Bool
  | PyVal.str s => s ≠ ""
  | PyVal.bool b => b
  | PyVal.int n => n ≠ 0
  | PyVal.list xs => !xs.isEmpty
  | PyVal.dict fs => !fs.isEmpty
  | PyVal.pynone => false

/-- Coerce a value to the string it holds, when it is a string. -/
def asStr : PyVal → Option String
  | PyVal.str s => Option.some s
  | _ => Option.none

/-- An uncaught Python exception, by kind. -/
inductive PyError where
  | typeError (msg : String)
  | keyError (k : String)
  | valueError (msg : String)
  | transport (e : String)

/-! ## Events recorded against the external collaborators -/

/-- One observable call to an external collaborator. -/
inductive Event where
  | evalEmergency (msg : String)
  | snsPublish (topicArn subject : String) (message : PyDict)
  | supervisorInvoke (msg : String)
  | modelInvoke (prompt : String)

/-- Recognise a notification publish. -/
def isPublish : Event → Bool
  | Event.snsPublish _ _ _ => true
  | _ => false

/-- Recognise an emergency-evaluator call. -/
def isEvalEmergency : Event → Bool
  | Event.evalEmergency _ => true
  | _ => false

/-- Recognise a supervisor call. -/
def isSupervisorInvoke : Event → Bool
  | Event.supervisorInvoke _ => true
  | _ => false

/-- Number of notification publishes in a trace. -/
def publishCount (es : List Event) : Nat := (es.filter isPublish).length

/-! ## Emergency agent (`emergency_agent.py`) -/

/-- The evaluation dict parsed from the model reply, with the `.get`
defaults of the source folded in (`is_emergency` defaults to `False`). -/
structure Evaluation where
  is_emergency : Bool
  severity : String
  recommended_actions : List String
  reasoning : String

/-- Outcome of the model call plus JSON extraction inside
`evaluate_emergency`: an exception anywhere in the `try` block, a reply
with no brace-delimited span, or a successfully parsed evaluation. -/
inductive EvalOutcome where
  | exn (e : String)
  | noJson
  | parsed (ev : Evaluation)

/-- `EmergencyAgent._escalate_emergency`: skip when no topic is configured
(Python truthiness), otherwise publish one notification whose subject
embeds the severity.  A publish exception is caught in the source, so the
event records the invocation. -/
def escalate_emergency (sns_topic_arn : Option String) (now message : String)
    (evaluation : Evaluation) : List Event :=
  if pyTruthy sns_topic_arn then
    [Event.snsPublish (sns_topic_arn.getD "")
      ("EMERGENCY ALERT - " ++ evaluation.severity ++ " severity")
      [("timestamp", PyVal.str now),
       ("original_message", PyVal.str message),
       ("severity", PyVal.str evaluation.severity),
       ("recommended_actions", PyVal.list (evaluation.recommended_actions.map PyVal.str)),
       ("reasoning", PyVal.str evaluation.reasoning)]]
  else []

/-- `EmergencyAgent.evaluate_emergency`.  The model call and `json.loads`
are modelled by `outcome`; the function is total, mirroring the
`except Exception` clause that converts every exception into the safe
default annotated with the error text. -/
def evaluate_emergency (sns_topic_arn : Option String) (now message : String)
    (outcome : EvalOutcome) : Evaluation × List Event :=
  match outcome with
  | EvalOutcome.exn e =>
      ({ is_emergency := false, severity := "unknown", recommended_actions := [],
         reasoning := "Error: " ++ e }, [Event.evalEmergency message])
  | EvalOutcome.noJson =>
      ({ is_emergency := false, severity := "unknown", recommended_actions := [],
         reasoning := "Failed to evaluate the situation" }, [Event.evalEmergency message])
  | EvalOutcome.parsed ev =>
      if ev.is_emergency && ["high", "critical"].contains ev.severity then
        (ev, Event.evalEmergency message :: escalate_emergency sns_topic_arn now message ev)
      else
        (ev, [Event.evalEmergency message])

/-- The response-shaping tail of `handle_emergency_request`, by tier. -/
def shape_emergency_response (evaluation : Evaluation) : PyDict :=
  if evaluation.is_emergency then
    if ["high", "critical"].contains evaluation.severity then
      [("status", PyVal.str "emergency_escalated"),
       ("message", PyVal.str "This situation has been identified as a serious emergency and has been escalated to the appropriate team. Please follow these immediate actions:"),
       ("actions", PyVal.list (evaluation.recommended_actions.map PyVal.str)),
       ("severity", PyVal.str evaluation.severity)]
    else
      [("status", PyVal.str "emergency_identified"),
       ("message", PyVal.str "This situation has been identified as a potential emergency. Please consider these recommended actions:"),
       ("actions", PyVal.list (evaluation.recommended_actions.map PyVal.str)),
       ("severity", PyVal.str evaluation.severity)]
  else
    [("status", PyVal.str "not_emergency"),
     ("message", PyVal.str "This situation has not been identified as an emergency."),
     ("reasoning", PyVal.str evaluation.reasoning),
     ("severity", PyVal.str evaluation.severity)]

/-- `EmergencyAgent.handle_emergency_request`: evaluate (again), then shape
the response from that evaluation; the events are those of the one
evaluation performed here. -/
def handle_emergency_request (sns_topic_arn : Option String) (now message : String)
    (outcome : EvalOutcome) : PyDict × List Event :=
  (shape_emergency_response (evaluate_emergency sns_topic_arn now message outcome).1,
   (evaluate_emergency sns_topic_arn now message outcome).2)

/-! ## Supervisor client (`supervisor_integration.py`) -/

/-- Parsed chunk stream of a successful supervisor transport call: the
decoded message dicts and the session id the service returned, if any. -/
structure SupRaw where
  messages : List PyDict
  sessionId : Option String

/-- The dict `invoke_agent` returns, with the callers' `.get` defaults
folded in: the error-object shape carries `error` and has no `messages`
or `sessionId` keys, read back as `[]` and `None` by the router. -/
structure SupResponse where
  messages : List PyDict
  sessionId : Option String
  error : Option String

/-- `SupervisorAgentClient.invoke_agent`: raises ValueError when either
identifier is falsy; otherwise the transport call either succeeds or its
exception is caught and returned as an error object. -/
def invoke_agent (agent_id agent_alias_id : Option String)
    (outcome : Except String SupRaw) (message : String)
    (session_id : Option String) : Except PyError SupResponse × List Event :=
  if !(pyTruthy agent_id) || !(pyTruthy agent_alias_id) then
    (Except.error (PyError.valueError "Agent ID and Agent Alias ID must be provided"), [])
  else
    match outcome with
    | Except.ok raw =>
        (Except.ok { messages := raw.messages, sessionId := raw.sessionId,
                     error := Option.none }, [Event.supervisorInvoke message])
    | Except.error e =>
        (Except.ok { messages := [], sessionId := Option.none, error := Option.some e },
         [Event.supervisorInvoke message])

/-! ## Ticketing agent (`ticketing_agent.py`) -/

/-- A parameter of a Python function signature: its name and whether the
signature supplies a default for it. -/
structure Param where
  name : String
  hasDefault : Bool

/-- The signature of `TicketingAgent.create_ticket`:
`(subject, description, user_id, emergency, priority="medium", assigned_to=None)`. -/
def create_ticket_params : List Param :=
  [⟨"subject", false⟩, ⟨"description", false⟩, ⟨"user_id", false⟩,
   ⟨"emergency", false⟩, ⟨"priority", true⟩, ⟨"assigned_to", true⟩]

/-- Required parameters of `sig` left unbound by a keyword-only call that
provides exactly the names in `provided`. -/
def missingRequired (sig : List Param) (provided : List String) : List String :=
  (sig.filter (fun p => !p.hasDefault && !(provided.contains p.name))).map (fun p => p.name)

/-- Python keyword-argument binding: a call raises TypeError when any
required parameter is left unbound. -/
def pyBindKw (sig : List Param) (provided : List String) : Except PyError Unit :=
  if missingRequired sig provided = [] then Except.ok ()
  else
    Except.error (PyError.typeError
      ("create_ticket() missing required positional arguments: " ++
        String.intercalate ", " (missingRequired sig provided)))

/-- Body of `TicketingAgent.create_ticket` over its bound arguments:
build the ticket dict, persist it, return it (or `None` on ClientError). -/
def create_ticket_body (args : PyDict) (ticket_uuid now : String)
    (putOk : Bool) : Option PyDict :=
  let ticket : PyDict :=
    [("ticket_id", PyVal.str ticket_uuid),
     ("subject", (dget args "subject").getD PyVal.pynone),
     ("user_id", (dget args "user_id").getD PyVal.pynone),
     ("assigned_to", (dget args "assigned_to").getD PyVal.pynone),
     ("description", (dget args "description").getD PyVal.pynone),
     ("status", PyVal.str "open"),
     ("priority", (dget args "priority").getD (PyVal.str "medium")),
     ("created_at", PyVal.str now),
     ("updated_at", PyVal.str now),
     ("emergency", (dget args "emergency").getD PyVal.pynone)]
  if putOk then Option.some ticket else Option.none

/-- `TicketingAgent.get_ticket_status`: the record when present, `None`
when absent or when the store call fails. -/
def get_ticket_status (table : List (String × PyDict)) (storeOk : Bool)
    (ticket_id : String) : Option PyDict :=
  if storeOk then List.lookup ticket_id table else Option.none

/-- DynamoDB `SET` of one attribute: replace in place, or append. -/
def setAttr (item : PyDict) (k : String) (v : PyVal) : PyDict :=
  if (List.lookup k item).isSome then
    item.map (fun kv => if kv.1 = k then (k, v) else kv)
  else item ++ [(k, v)]

/-- DynamoDB `update_item`: apply the attribute updates to the addressed
item, creating an item holding only the key and the updated attributes
when none exists (no existence precondition). -/
def update_item (table : List (String × PyDict)) (ticket_id : String)
    (updates : List (String × PyVal)) : List (String × PyDict) :=
  match List.lookup ticket_id table with
  | Option.some item =>
      table.map (fun row =>
        if row.1 = ticket_id then
          (ticket_id, updates.foldl (fun it kv => setAttr it kv.1 kv.2) item)
        else row)
  | Option.none =>
      table ++ [(ticket_id,
        updates.foldl (fun it kv => setAttr it kv.1 kv.2) [("ticket_id", PyVal.str ticket_id)])]

/-- `TicketingAgent.cancel_ticket`: conditionless update setting `status`
and `updated_at`, plus `cancellation_reason` only when `reason` is truthy;
returns `False` exactly when the store update raises ClientError. -/
def cancel_ticket (table : List (String × PyDict)) (now : String) (storeOk : Bool)
    (ticket_id : String) (reason : Option String) : Bool × List (String × PyDict) :=
  let updates : List (String × PyVal) :=
    [("status", PyVal.str "cancelled"), ("updated_at", PyVal.str now)] ++
      (if pyTruthy reason then [("cancellation_reason", PyVal.str (reason.getD ""))] else [])
  if storeOk then (true, update_item table ticket_id updates) else (false, table)

/-! ## Bedrock ticketing agent (`bedrock_integration.py`) -/

/-- `json.loads` modelled as an abstract parse function: a string-keyed
object on success, failure standing for JSONDecodeError. -/
def JParser := String → Option PyDict

/-- Outcome of the model call inside `_determine_intent`.  The
`invoke_model` call there is **not** inside the `try` block, so a
transport exception propagates out of `process_request`. -/
inductive IntentOutcome where
  | transportError (e : String)
  | content (c : String)

/-- `BedrockTicketingAgent._determine_intent`: brace-extract and parse the
model reply; any parse failure recovers locally to `{action: unknown}`. -/
def determine_intent (jp : JParser) (outcome : IntentOutcome) : Except PyError PyDict :=
  match outcome with
  | IntentOutcome.transportError e => Except.error (PyError.transport e)
  | IntentOutcome.content c =>
      match extractJsonSub c with
      | Option.some js =>
          match jp js with
          | Option.some d => Except.ok d
          | Option.none => Except.ok [("action", PyVal.str "unknown")]
      | Option.none => Except.ok [("action", PyVal.str "unknown")]

/-- The keyword arguments supplied at the `create_ticket` call site inside
`BedrockTicketingAgent.process_request` (the source passes no `user_id`
and no `emergency`). -/
def bedrock_create_call_kwargs : List String :=
  ["subject", "description", "priority", "assigned_to"]

/-- `BedrockTicketingAgent.process_request`: classify the intent, then
dispatch on `intent["action"]`.  The `create_ticket` call site is modelled
through Python keyword-argument binding against the signature of
`TicketingAgent.create_ticket`. -/
def bedrock_process_request (jp : JParser) (outcome : IntentOutcome)
    (table : List (String × PyDict)) (ticket_uuid now : String)
    (putOk getOk cancelOk : Bool) : Except PyError PyDict :=
  match determine_intent jp outcome with
  | Except.error e => Except.error e
  | Except.ok intent =>
  match dget intent "action" with
  | Option.none => Except.error (PyError.keyError "action")
  | Option.some a =>
    if isStrVal a "create_ticket" then
      match pyBindKw create_ticket_params bedrock_create_call_kwargs with
      | Except.error e => Except.error e
      | Except.ok _ =>
          let args : PyDict :=
            [("subject", (dget intent "subject").getD (PyVal.str "No subject provided")),
             ("description", (dget intent "description").getD (PyVal.str "No description provided")),
             ("priority", (dget intent "priority").getD (PyVal.str "medium")),
             ("assigned_to", (dget intent "assigned_to").getD PyVal.pynone)]
          let ticket := create_ticket_body args ticket_uuid now putOk
          Except.ok
            [("action", PyVal.str "create_ticket"),
             ("success", PyVal.bool ticket.isSome),
             ("ticket", match ticket with
                        | Option.some t => PyVal.dict t
                        | Option.none => PyVal.pynone)]
    else if isStrVal a "get_ticket_status" then
      let tid := dget intent "ticket_id"
      if !(pyTruthyVal (tid.getD PyVal.pynone)) then
        Except.ok [("action", PyVal.str "get_ticket_status"),
                   ("success", PyVal.bool false),
                   ("error", PyVal.str "No ticket ID provided")]
      else
        let ticket := get_ticket_status table getOk (((tid.getD PyVal.pynone) |> asStr).getD "")
        Except.ok [("action", PyVal.str "get_ticket_status"),
                   ("success", PyVal.bool ticket.isSome),
                   ("ticket", match ticket with
                              | Option.some t => PyVal.dict t
                              | Option.none => PyVal.pynone)]
    else if isStrVal a "cancel_ticket" then
      let tid := dget intent "ticket_id"
      if !(pyTruthyVal (tid.getD PyVal.pynone)) then
        Except.ok [("action", PyVal.str "cancel_ticket"),
                   ("success", PyVal.bool false),
                   ("error", PyVal.str "No ticket ID provided")]
      else
        let r := cancel_ticket table now cancelOk (((tid.getD PyVal.pynone) |> asStr).getD "")
                   ((dget intent "reason").bind asStr)
        Except.ok [("action", PyVal.str "cancel_ticket"),
                   ("success", PyVal.bool r.1),
                   ("ticket_id", (tid.getD PyVal.pynone))]
    else
      Except.ok [("action", PyVal.str "unknown"),
                 ("success", PyVal.bool false),
                 ("error", PyVal.str "Could not determine the requested action")]

/-! ## FAQ agent (`faq_agent.py`) -/

/-- One entry of the `relevant_docs` list. -/
structure DocMatch where
  content : String
  source : String
  relevance : Nat
deriving DecidableEq

/-- Python `s.endswith(suffix)`. -/
def pyEndsWith (s suffix : String) : Bool := decide (suffix.toList <:+ s.toList)

/-- `key.endswith(".txt") or key.endswith(".md") or key.endswith(".json")`
(the source `continue`s when all three fail). -/
def allowedExt (key : String) : Bool :=
  pyEndsWith key ".txt" || pyEndsWith key ".md" || pyEndsWith key ".json"

/-- The `list_objects_v2` outcome: a ClientError (caught, yielding `[]`),
a response with no `Contents` key, or the listed objects paired with the
bodies `get_object` returns for them. -/
inductive S3Listing where
  | clientError (e : String)
  | noContents
  | contents (objs : List (String × String))

/-- The retrieval loop of `retrieve_relevant_documents`: break once
`max_docs` candidates are collected, skip disallowed extensions, keep
positive-overlap documents in listing order. -/
def retrieveLoop (qterms : List String) (max_docs : Nat) :
    List (String × String) → List DocMatch → List DocMatch
  | [], acc => acc
  | (key, body) :: rest, acc =>
    if acc.length ≥ max_docs then acc
    else if !(allowedExt key) then retrieveLoop qterms max_docs rest acc
    else if (qterms.filter (fun t => (termSet body).contains t)).length > 0 then
      retrieveLoop qterms max_docs rest
        (acc ++ [⟨body, key, (qterms.filter (fun t => (termSet body).contains t)).length⟩])
    else retrieveLoop qterms max_docs rest acc

/-- Insertion step of Python `list.sort(key=relevance, reverse=True)`:
the new element goes after every strictly greater element and before the
first element of smaller-or-equal relevance. -/
def insertByRel (x : DocMatch) : List DocMatch → List DocMatch
  | [] => [x]
  | y :: ys => if y.relevance > x.relevance then y :: insertByRel x ys else x :: y :: ys

/-- Python `list.sort(key=lambda x: x["relevance"], reverse=True)`:
a stable descending sort. -/
def sortByRelDesc : List DocMatch → List DocMatch
  | [] => []
  | x :: xs => insertByRel x (sortByRelDesc xs)

/-- `FAQAgent.retrieve_relevant_documents`. -/
def retrieve_relevant_documents (listing : S3Listing) (query : String)
    (max_docs : Nat := 3) : List DocMatch :=
  match listing with
  | S3Listing.clientError _ => []
  | S3Listing.noContents => []
  | S3Listing.contents objs =>
      (sortByRelDesc (retrieveLoop (termSet query) max_docs objs [])).take max_docs

/-- The fixed refusal returned when retrieval is empty. -/
def faq_refusal : String :=
  "I couldn\x27t find any relevant information in the knowledge base."

/-- The context block of the grounded-QA prompt. -/
def faq_context (docs : List DocMatch) : String :=
  String.intercalate "\n\n"
    (docs.map (fun d => "Document from " ++ d.source ++ ":\n" ++ d.content))

/-- The grounded-QA prompt (the surrounding indentation whitespace of the
source f-string is elided). -/
def faq_prompt (context query : String) : String :=
  "You are a helpful assistant answering questions based on the provided knowledge base.\n" ++
  "Use ONLY the information in the following documents to answer the question.\n" ++
  "If the documents don\x27t contain the answer, say \"I don\x27t have enough information to answer this question.\"\n\n" ++
  "KNOWLEDGE BASE DOCUMENTS:\n" ++ context ++ "\n\nQUESTION: " ++ query ++ "\n\nANSWER:"

/-- `FAQAgent.answer_question`: hard short-circuit to the refusal when
retrieval is empty, otherwise one model invocation whose failure is
caught and converted to an error answer. -/
def answer_question (listing : S3Listing) (synth : Except String String)
    (query : String) : PyDict × List Event :=
  let relevant_docs := retrieve_relevant_documents listing query
  if relevant_docs.isEmpty then
    ([("answer", PyVal.str faq_refusal), ("sources", PyVal.list [])], [])
  else
    let context := faq_context relevant_docs
    let sources := relevant_docs.map (fun d => d.source)
    let prompt := faq_prompt context query
    match synth with
    | Except.ok answer =>
        ([("answer", PyVal.str answer),
          ("sources", PyVal.list (sources.map PyVal.str))], [Event.modelInvoke prompt])
    | Except.error _ =>
        ([("answer", PyVal.str "I encountered an error while trying to answer your question."),
          ("sources", PyVal.list [])], [Event.modelInvoke prompt])

/-! ## Router (`multi_agent_system.py`) -/

/-- `message.get("content", "")`, read as a string (a non-string content
would raise later in the source and is outside the modelled scope). -/
def getContent (m : PyDict) : String := ((dget m "content").bind asStr).getD ""

/-- The literal substring the structured-routing check looks for. -/
def agentPat : String := "\x7b\"agent\":"

/-- Compare an optional dict value against a string (Python `d.get(k) == s`). -/
def optEqStr (o : Option PyVal) (s : String) : Bool :=
  match o with
  | Option.some v => isStrVal v s
  | Option.none => false

/-- The structured-routing attempt of one loop iteration of
`_extract_routing_decision`: when the fragment contains the agent pattern,
brace-extract and parse it; the parsed object is returned only when it
carries an `agent` key, and every failure falls through to the keyword
rules (`except json.JSONDecodeError: pass`). -/
def structuredAgentOf (jp : JParser) (content : String) : Option PyDict :=
  if containsSub content agentPat then
    match extractJsonSub content with
    | Option.some js =>
        match jp js with
        | Option.some obj =>
            if (List.lookup "agent" obj).isSome then Option.some obj else Option.none
        | Option.none => Option.none
    | Option.none => Option.none
  else Option.none

/-- The message loop of `_extract_routing_decision`, threading the mutable
`decision["agent"]` value through the keyword overwrites. -/
def routingGo (jp : JParser) (dec : String) : List PyDict → PyDict
  | [] => [("agent", PyVal.str dec)]
  | m :: rest =>
    match structuredAgentOf jp (getContent m) with
    | Option.some obj => obj
    | Option.none =>
      routingGo jp
        (if containsSub (pyLower (getContent m)) "ticket" ||
            containsSub (pyLower (getContent m)) "create ticket" ||
            containsSub (pyLower (getContent m)) "cancel ticket" then "ticketing"
         else if containsSub (pyLower (getContent m)) "question" ||
            containsSub (pyLower (getContent m)) "faq" ||
            containsSub (pyLower (getContent m)) "knowledge base" then "faq"
         else if containsSub (pyLower (getContent m)) "emergency" ||
            containsSub (pyLower (getContent m)) "urgent" then "emergency"
         else dec) rest

/-- `MultiAgentSystem._extract_routing_decision`, starting from the
default decision `agent = supervisor`. -/
def extract_routing_decision (jp : JParser) (supervisor_response : SupResponse) : PyDict :=
  routingGo jp "supervisor" supervisor_response.messages

/-- `MultiAgentSystem._extract_supervisor_message`: the first fragment's
content, or the empty string. -/
def extract_supervisor_message (supervisor_response : SupResponse) : String :=
  match supervisor_response.messages with
  | [] => ""
  | m :: _ => getContent m

/-- All collaborator outcomes one request can consume: configuration,
per-call emergency-evaluator outcomes in call order, the supervisor
transport outcome, the JSON parser, and the sub-agent stores. -/
structure Env where
  agent_id : Option String
  agent_alias_id : Option String
  sns_topic_arn : Option String
  now : String
  evalOutcome1 : EvalOutcome
  evalOutcome2 : EvalOutcome
  supOutcome : Except String SupRaw
  jp : JParser
  intentOutcome : IntentOutcome
  table : List (String × PyDict)
  ticket_uuid : String
  putOk : Bool
  getOk : Bool
  cancelOk : Bool
  listing : S3Listing
  synth : Except String String

/-- The fixed keyword list of the router's emergency pre-check. -/
def emergency_keywords : List String :=
  ["emergency", "accident", "injury", "fire", "urgent", "help", "danger"]

/-- `any(keyword in user_input.lower() for keyword in emergency_keywords)`:
substring containment, not whole-word matching. -/
def hasEmergencyKeyword (user_input : String) : Bool :=
  emergency_keywords.any (fun kw => containsSub (pyLower user_input) kw)

/-- The part of `MultiAgentSystem.process_request` after the emergency
pre-check: ask the supervisor, extract the routing decision, dispatch.
`nextEval` is the outcome the emergency evaluator would produce if the
`emergency` dispatch branch calls it (the request's next evaluator call). -/
def route_via_supervisor (env : Env) (nextEval : EvalOutcome)
    (user_input : String) (session_id : Option String) :
    Except PyError PyDict × List Event :=
  match invoke_agent env.agent_id env.agent_alias_id env.supOutcome user_input session_id with
  | (Except.error e, events) => (Except.error e, events)
  | (Except.ok supervisor_response, events) =>
    if optEqStr (dget (extract_routing_decision env.jp supervisor_response) "agent")
        "ticketing" then
      (bedrock_process_request env.jp env.intentOutcome env.table env.ticket_uuid env.now
        env.putOk env.getOk env.cancelOk, events)
    else if optEqStr (dget (extract_routing_decision env.jp supervisor_response) "agent")
        "faq" then
      (Except.ok (answer_question env.listing env.synth user_input).1,
       events ++ (answer_question env.listing env.synth user_input).2)
    else if optEqStr (dget (extract_routing_decision env.jp supervisor_response) "agent")
        "emergency" then
      (Except.ok (handle_emergency_request env.sns_topic_arn env.now user_input nextEval).1,
       events ++ (handle_emergency_request env.sns_topic_arn env.now user_input nextEval).2)
    else
      (Except.ok
        [("response", PyVal.str (extract_supervisor_message supervisor_response)),
         ("session_id", match supervisor_response.sessionId with
                        | Option.some sid => PyVal.str sid
                        | Option.none => PyVal.pynone)], events)

/-- `MultiAgentSystem.process_request`: emergency pre-check first, then
supervisor-driven dispatch. -/
def multi_process_request (env : Env) (user_input : String)
    (session_id : Option String) : Except PyError PyDict × List Event :=
  if hasEmergencyKeyword user_input then
    if (evaluate_emergency env.sns_topic_arn env.now user_input env.evalOutcome1).1.is_emergency
    then
      (Except.ok (handle_emergency_request env.sns_topic_arn env.now user_input
          env.evalOutcome2).1,
       (evaluate_emergency env.sns_topic_arn env.now user_input env.evalOutcome1).2 ++
         (handle_emergency_request env.sns_topic_arn env.now user_input env.evalOutcome2).2)
    else
      ((route_via_supervisor env env.evalOutcome2 user_input session_id).1,
       (evaluate_emergency env.sns_topic_arn env.now user_input env.evalOutcome1).2 ++
         (route_via_supervisor env env.evalOutcome2 user_input session_id).2)
  else
    route_via_supervisor env env.evalOutcome1 user_input session_id

/-! ## Guardrails (`guardrails_integration.py`) -/

/-- The configured policy identifiers of `GuardrailsManager`. -/
structure GuardrailsConfig where
  guardrail_id : Option String
  guardrail_version : Option String

/-- The `topicPolicy` component of a parsed `apply_guardrail` body. -/
structure TopicPolicyR where
  blocked : Bool
  topics : List String

/-- Parsed body of a successful `apply_guardrail` call; a missing
`assessment` or `topicPolicy` key is `Option.none`, mirroring the
source's chained `.get` defaults. -/
structure GApiResult where
  topicPolicy : Option TopicPolicyR
  output : Option String

/-- The dict either filter pass returns (`filtered_text` models the
`filtered_input` / `filtered_output` key respectively). -/
structure GuardrailResult where
  is_blocked : Bool
  filtered_text : String
  blocked_reasons : List String

/-- `GuardrailsManager.apply_guardrails` (input pass): pass-through when
either identifier is falsy, fail-open pass-through when the call throws,
otherwise read the assessment with its defaults. -/
def apply_guardrails (cfg : GuardrailsConfig) (outcome : Except String GApiResult)
    (input_text : String) : GuardrailResult :=
  if !(pyTruthy cfg.guardrail_id) || !(pyTruthy cfg.guardrail_version) then
    { is_blocked := false, filtered_text := input_text, blocked_reasons := [] }
  else
    match outcome with
    | Except.error _ =>
        { is_blocked := false, filtered_text := input_text, blocked_reasons := [] }
    | Except.ok result =>
        { is_blocked := (result.topicPolicy.map TopicPolicyR.blocked).getD false,
          filtered_text := result.output.getD input_text,
          blocked_reasons := (result.topicPolicy.map TopicPolicyR.topics).getD [] }

/-- `GuardrailsManager.apply_guardrails_to_output` (output pass): same
structure as the input pass over the output text. -/
def apply_guardrails_to_output (cfg : GuardrailsConfig)
    (outcome : Except String GApiResult) (output_text : String) : GuardrailResult :=
  if !(pyTruthy cfg.guardrail_id) || !(pyTruthy cfg.guardrail_version) then
    { is_blocked := false, filtered_text := output_text, blocked_reasons := [] }
  else
    match outcome with
    | Except.error _ =>
        { is_blocked := false, filtered_text := output_text, blocked_reasons := [] }
    | Except.ok result =>
        { is_blocked := (result.topicPolicy.map TopicPolicyR.blocked).getD false,
          filtered_text := result.output.getD output_text,
          blocked_reasons := (result.topicPolicy.map TopicPolicyR.topics).getD [] }

/-! ## Secure gate (`secure_multi_agent_system.py`) -/

mutual

/-- A plain JSON rendering of a value, standing in for `json.dumps`
(string escaping elided). -/
def pyDumpVal : PyVal → String
  | PyVal.str s => "\"" ++ s ++ "\""
  | PyVal.bool b => if b then "true" else "false"
  | PyVal.int n => toString n
  | PyVal.list xs => "[" ++ pyDumpListStr xs ++ "]"
  | PyVal.dict fs => "\x7b" ++ pyDumpFieldsStr fs ++ "\x7d"
  | PyVal.pynone => "null"

/-- Comma-joined rendering of a value list. -/
def pyDumpListStr : List PyVal → String
  | [] => ""
  | [x] => pyDumpVal x
  | x :: y :: xs => pyDumpVal x ++ ", " ++ pyDumpListStr (y :: xs)

/-- Comma-joined rendering of dict fields. -/
def pyDumpFieldsStr : List (String × PyVal) → String
  | [] => ""
  | [(k, v)] => "\"" ++ k ++ "\": " ++ pyDumpVal v
  | (k, v) :: f :: fs => "\"" ++ k ++ "\": " ++ pyDumpVal v ++ ", " ++ pyDumpFieldsStr (f :: fs)

end

/-- `SecureMultiAgentSystem._extract_response_text` on a dict response:
field preference `message`, `answer`, `response`, else serialize the
whole dict. -/
def extract_response_text (response : PyDict) : String :=
  match dget response "message" with
  | Option.some v => (asStr v).getD (pyDumpVal v)
  | Option.none =>
    match dget response "answer" with
    | Option.some v => (asStr v).getD (pyDumpVal v)
    | Option.none =>
      match dget response "response" with
      | Option.some v => (asStr v).getD (pyDumpVal v)
      | Option.none => pyDumpVal (PyVal.dict response)

/-- `SecureMultiAgentSystem._update_response_text` on a dict response. -/
def update_response_text (response : PyDict) (filtered_text : String) : PyDict :=
  if (dget response "message").isSome then setAttr response "message" (PyVal.str filtered_text)
  else if (dget response "answer").isSome then setAttr response "answer" (PyVal.str filtered_text)
  else if (dget response "response").isSome then setAttr response "response" (PyVal.str filtered_text)
  else response ++ [("filtered_response", PyVal.str filtered_text)]

/-- `SecureMultiAgentSystem.process_request`: input filter, hard stop on
block, route, output filter, hard stop on block, write back. -/
def secure_process_request (cfg : GuardrailsConfig)
    (inOutcome outOutcome : Except String GApiResult) (env : Env)
    (user_input : String) (session_id : Option String) :
    Except PyError PyDict × List Event :=
  let input_guardrail_result := apply_guardrails cfg inOutcome user_input
  if input_guardrail_result.is_blocked then
    (Except.ok
      [("status", PyVal.str "blocked_by_guardrails"),
       ("message", PyVal.str "I\x27m sorry, but I cannot process this request as it violates our content policies."),
       ("blocked_reasons", PyVal.list (input_guardrail_result.blocked_reasons.map PyVal.str))],
     [])
  else
    let filtered_input := input_guardrail_result.filtered_text
    let r := multi_process_request env filtered_input session_id
    match r.1 with
    | Except.error e => (Except.error e, r.2)
    | Except.ok response =>
      let response_text := extract_response_text response
      let output_guardrail_result := apply_guardrails_to_output cfg outOutcome response_text
      if output_guardrail_result.is_blocked then
        (Except.ok
          [("status", PyVal.str "output_blocked_by_guardrails"),
           ("message", PyVal.str "I\x27m sorry, but I cannot provide the generated response as it violates our content policies."),
           ("blocked_reasons", PyVal.list (output_guardrail_result.blocked_reasons.map PyVal.str))],
         r.2)
      else
        (Except.ok (update_response_text response output_guardrail_result.filtered_text), r.2)

/-! ## Specification-side restatements, for refinement comparisons -/

/-- Following the spec's words: the keyword group one reply fragment
matches, if any (`ticket` rules, then `question`/`faq`/`knowledge base`,
then `emergency`/`urgent`). -/
def kwOf (content : String) : Option String :=
  if containsSub (pyLower content) "ticket" || containsSub (pyLower content) "create ticket" ||
      containsSub (pyLower content) "cancel ticket" then Option.some "ticketing"
  else if containsSub (pyLower content) "question" || containsSub (pyLower content) "faq" ||
      containsSub (pyLower content) "knowledge base" then Option.some "faq"
  else if containsSub (pyLower content) "emergency" ||
      containsSub (pyLower content) "urgent" then Option.some "emergency"
  else Option.none

/-- Following the spec's words: the first fragment carrying a structured
agent object, if any. -/
def firstStructured (jp : JParser) : List PyDict → Option PyDict
  | [] => Option.none
  | m :: rest =>
    match structuredAgentOf jp (getContent m) with
    | Option.some obj => Option.some obj
    | Option.none => firstStructured jp rest

/-- Following the spec's words: the keyword group of the **last** matching
fragment, if any (sequential overwrite). -/
def lastKw : List PyDict → Option String
  | [] => Option.none
  | m :: rest =>
    match lastKw rest with
    | Option.some g => Option.some g
    | Option.none => kwOf (getContent m)

/-- Following the spec's words: the retrieval candidates in listing order,
keeping extensions `.txt`/`.md`/`.json` with set-intersection relevance
greater than zero. -/
def retrieveCandidates (query : String) (objs : List (String × String)) : List DocMatch :=
  (objs.filter (fun o => allowedExt o.1 && decide (0 < overlapCount query o.2))).map
    (fun o => ⟨o.2, o.1, overlapCount query o.2⟩)

/-- Following the spec's words: stop collecting after `max_docs`
candidates, then sort by relevance descending (stable). -/
def retrieveSpec (query : String) (objs : List (String × String)) (max_docs : Nat) :
    List DocMatch :=
  sortByRelDesc ((retrieveCandidates query objs).take max_docs)

/-! # Theorems -/

/-- The trace of one `evaluate_emergency` call begins with the evaluator
event, whatever the model outcome. -/
theorem evaluate_emergency_events_head (t : Option String) (now msg : String)
    (o : EvalOutcome) :
    ∃ tl, (evaluate_emergency t now msg o).2 = Event.evalEmergency msg :: tl := by
  cases o with
  | exn e => exact ⟨[], rfl⟩
  | noJson => exact ⟨[], rfl⟩
  | parsed ev =>
    simp only [evaluate_emergency]
    by_cases h : (ev.is_emergency && ["high", "critical"].contains ev.severity) = true
    · rw [if_pos h]
      exact ⟨escalate_emergency t now msg ev, rfl⟩
    · rw [if_neg h]
      exact ⟨[], rfl⟩

/-- C5: for every message, if any exception occurs during the emergency
evaluator's model call or JSON parse, `evaluate_emergency` returns the
safe default (`is_emergency = false`, `severity = "unknown"`, no actions)
with the error text included in `reasoning`, publishes nothing, and —
being a total function of the outcome — never propagates the exception. -/
theorem c5_evaluate_emergency_exception_safe
    (sns_topic_arn : Option String) (now message e : String) :
    evaluate_emergency sns_topic_arn now message (EvalOutcome.exn e) =
      ({ is_emergency := false, severity := "unknown", recommended_actions := [],
         reasoning := "Error: " ++ e }, [Event.evalEmergency message]) ∧
    e.toList <:+: ("Error: " ++ e).toList := by
  refine ⟨rfl, List.IsSuffix.isInfix ⟨"Error: ".toList, ?_⟩⟩
  simp [String.toList]

/-- C4: when either content-filter policy identifier is absent (falsy),
both filter passes return not-blocked with the text unchanged and empty
reasons; when the filter collaborator throws, both passes likewise fail
open; and the whole pipeline then behaves exactly as with no filter
configured, the filter outcome never escaping `process_request` as an
exception (both passes are total functions of the outcome). -/
theorem c4_guardrails_fail_open
    (cfg : GuardrailsConfig) (text e : String) (outcome : Except String GApiResult) :
    ((pyTruthy cfg.guardrail_id = false ∨ pyTruthy cfg.guardrail_version = false) →
      apply_guardrails cfg outcome text =
        { is_blocked := false, filtered_text := text, blocked_reasons := [] } ∧
      apply_guardrails_to_output cfg outcome text =
        { is_blocked := false, filtered_text := text, blocked_reasons := [] }) ∧
    (apply_guardrails cfg (Except.error e) text =
        { is_blocked := false, filtered_text := text, blocked_reasons := [] } ∧
      apply_guardrails_to_output cfg (Except.error e) text =
        { is_blocked := false, filtered_text := text, blocked_reasons := [] }) ∧
    (∀ env sid,
      secure_process_request cfg (Except.error e) (Except.error e) env text sid =
        secure_process_request ⟨Option.none, Option.none⟩ (Except.error e) (Except.error e)
          env text sid) := by
  have herr : apply_guardrails cfg (Except.error e) text =
      { is_blocked := false, filtered_text := text, blocked_reasons := [] } := by
    unfold apply_guardrails; split <;> rfl
  have herrOut : ∀ s, apply_guardrails_to_output cfg (Except.error e) s =
      { is_blocked := false, filtered_text := s, blocked_reasons := [] } := by
    intro s; unfold apply_guardrails_to_output; split <;> rfl
  refine ⟨?_, ⟨herr, herrOut text⟩, ?_⟩
  · intro h
    have hc : (!(pyTruthy cfg.guardrail_id) || !(pyTruthy cfg.guardrail_version)) = true := by
      rcases h with h | h <;> simp [h]
    constructor
    · unfold apply_guardrails; simp [hc]
    · unfold apply_guardrails_to_output; simp [hc]
  · intro env sid
    unfold secure_process_request
    simp only [herr, herrOut]
    have h1 : apply_guardrails ⟨Option.none, Option.none⟩ (Except.error e) text =
        { is_blocked := false, filtered_text := text, blocked_reasons := [] } := rfl
    have h2 : ∀ s, apply_guardrails_to_output ⟨Option.none, Option.none⟩ (Except.error e) s =
        { is_blocked := false, filtered_text := s, blocked_reasons := [] } := fun _ => rfl
    simp only [h1, h2]

/-- Witness for C4 at concrete inputs: an absent guardrail id makes the
input pass return the text unchanged even when the reported assessment
says blocked, and a throwing filter call fails open. -/
theorem c4_guardrails_fail_open_witness :
    apply_guardrails ⟨Option.none, Option.some "1"⟩
        (Except.ok ⟨Option.some ⟨true, ["t"]⟩, Option.none⟩) "hello" =
      { is_blocked := false, filtered_text := "hello", blocked_reasons := [] } ∧
    apply_guardrails ⟨Option.some "g", Option.some "1"⟩ (Except.error "boom") "hello" =
      { is_blocked := false, filtered_text := "hello", blocked_reasons := [] } :=
  ⟨((c4_guardrails_fail_open ⟨Option.none, Option.some "1"⟩ "hello" "boom"
      (Except.ok ⟨Option.some ⟨true, ["t"]⟩, Option.none⟩)).1 (Or.inl rfl)).1,
    (c4_guardrails_fail_open ⟨Option.some "g", Option.some "1"⟩ "hello" "boom"
      (Except.ok ⟨Option.none, Option.none⟩)).2.1.1⟩

/-- C3: if the input content filter reports blocked, `process_request` of
the secure system returns the fixed `blocked_by_guardrails` response
carrying the reported reasons, records no collaborator event, and its
result does not depend on the router or the output filter — the router
and all downstream handlers are never invoked. -/
theorem c3_gate_blocks_input_before_routing
    (cfg : GuardrailsConfig) (inOutcome outOutcome : Except String GApiResult)
    (env : Env) (user_input : String) (sid : Option String)
    (hb : (apply_guardrails cfg inOutcome user_input).is_blocked = true) :
    secure_process_request cfg inOutcome outOutcome env user_input sid =
      (Except.ok
        [("status", PyVal.str "blocked_by_guardrails"),
         ("message", PyVal.str "I\x27m sorry, but I cannot process this request as it violates our content policies."),
         ("blocked_reasons",
          PyVal.list ((apply_guardrails cfg inOutcome user_input).blocked_reasons.map PyVal.str))],
        []) ∧
    (∀ env' outOutcome',
      secure_process_request cfg inOutcome outOutcome' env' user_input sid =
        secure_process_request cfg inOutcome outOutcome env user_input sid) := by
  constructor
  · unfold secure_process_request
    simp [hb]
  · intro env' o'
    unfold secure_process_request
    simp [hb]

/-- Witness for C3 at a concrete blocked outcome. -/
theorem c3_gate_blocks_input_before_routing_witness :
    secure_process_request ⟨Option.some "g", Option.some "1"⟩
        (Except.ok ⟨Option.some ⟨true, ["violence"]⟩, Option.none⟩)
        (Except.ok ⟨Option.none, Option.none⟩)
        { agent_id := Option.some "a", agent_alias_id := Option.some "b",
          sns_topic_arn := Option.none, now := "T0",
          evalOutcome1 := EvalOutcome.noJson, evalOutcome2 := EvalOutcome.noJson,
          supOutcome := Except.error "down", jp := fun _ => Option.none,
          intentOutcome := IntentOutcome.content "", table := [], ticket_uuid := "u",
          putOk := true, getOk := true, cancelOk := true,
          listing := S3Listing.noContents, synth := Except.error "e" }
        "attack plan" Option.none =
      (Except.ok
        [("status", PyVal.str "blocked_by_guardrails"),
         ("message", PyVal.str "I\x27m sorry, but I cannot process this request as it violates our content policies."),
         ("blocked_reasons", PyVal.list [PyVal.str "violence"])],
        []) :=
  (c3_gate_blocks_input_before_routing ⟨Option.some "g", Option.some "1"⟩
    (Except.ok ⟨Option.some ⟨true, ["violence"]⟩, Option.none⟩)
    (Except.ok ⟨Option.none, Option.none⟩)
    { agent_id := Option.some "a", agent_alias_id := Option.some "b",
      sns_topic_arn := Option.none, now := "T0",
      evalOutcome1 := EvalOutcome.noJson, evalOutcome2 := EvalOutcome.noJson,
      supOutcome := Except.error "down", jp := fun _ => Option.none,
      intentOutcome := IntentOutcome.content "", table := [], ticket_uuid := "u",
      putOk := true, getOk := true, cancelOk := true,
      listing := S3Listing.noContents, synth := Except.error "e" }
    "attack plan" Option.none rfl).1

/-- C6: when retrieval returns no documents, `answer_question` returns
exactly the fixed refusal with an empty source list and records no model
invocation. -/
theorem c6_answer_question_empty_retrieval
    (listing : S3Listing) (synth : Except String String) (query : String)
    (h : retrieve_relevant_documents listing query = []) :
    answer_question listing synth query =
      ([("answer", PyVal.str faq_refusal), ("sources", PyVal.list [])], []) := by
  unfold answer_question
  simp [h]

/-- Witness for C6: a knowledge base listing with no contents. -/
theorem c6_answer_question_empty_retrieval_witness :
    answer_question S3Listing.noContents (Except.ok "ans") "store hours" =
      ([("answer", PyVal.str faq_refusal), ("sources", PyVal.list [])], []) :=
  c6_answer_question_empty_retrieval S3Listing.noContents (Except.ok "ans") "store hours" rfl

/-! ### Association-list lemmas for the ticket store -/

theorem lookup_map_update {β : Type} (l : List (String × β)) (k : String) (v : β)
    (h : (List.lookup k l).isSome = true) :
    List.lookup k (l.map (fun kv => if kv.1 = k then (k, v) else kv)) = Option.some v := by
  induction l with
  | nil => simp [List.lookup] at h
  | cons kv rest ih =>
    obtain ⟨k₀, v₀⟩ := kv
    simp only [List.map_cons]
    by_cases hk : k₀ = k
    · subst hk
      rw [if_pos (show ((k₀, v₀) : String × β).1 = k₀ from rfl)]
      simp [List.lookup]
    · rw [if_neg (by simpa using hk)]
      have hne : (k == k₀) = false := by simp [Ne.symm hk]
      have h2 : (List.lookup k rest).isSome = true := by
        simpa [List.lookup, hne] using h
      simp [List.lookup, hne, ih h2]

theorem lookup_map_update_ne {β : Type} (l : List (String × β)) (k k' : String) (v : β)
    (h : k' ≠ k) :
    List.lookup k' (l.map (fun kv => if kv.1 = k then (k, v) else kv)) =
      List.lookup k' l := by
  induction l with
  | nil => rfl
  | cons kv rest ih =>
    obtain ⟨k₀, v₀⟩ := kv
    simp only [List.map_cons]
    by_cases hk : k₀ = k
    · subst hk
      rw [if_pos rfl]
      have hne : (k' == k₀) = false := by simp [h]
      simp [List.lookup, hne, ih]
    · rw [if_neg (by simpa using hk)]
      simp [List.lookup, ih]

theorem lookup_append_assoc {β : Type} (l₁ l₂ : List (String × β)) (k : String) :
    List.lookup k (l₁ ++ l₂) =
      match List.lookup k l₁ with
      | Option.some v => Option.some v
      | Option.none => List.lookup k l₂ := by
  induction l₁ with
  | nil => rfl
  | cons kv rest ih =>
    obtain ⟨k₀, v₀⟩ := kv
    by_cases hk : (k == k₀) = true
    · simp [List.lookup, hk]
    · simp only [Bool.not_eq_true] at hk
      simp [List.lookup, hk, ih]

theorem lookup_setAttr_self (item : PyDict) (k : String) (v : PyVal) :
    List.lookup k (setAttr item k v) = Option.some v := by
  unfold setAttr
  split
  · exact lookup_map_update item k v (by assumption)
  · rename_i h
    have hnone : List.lookup k item = Option.none := by
      cases hh : List.lookup k item with
      | none => rfl
      | some w => rw [hh] at h; simp at h
    rw [lookup_append_assoc, hnone]
    simp [List.lookup]

theorem lookup_setAttr_ne (item : PyDict) (k k' : String) (v : PyVal) (h : k' ≠ k) :
    List.lookup k' (setAttr item k v) = List.lookup k' item := by
  unfold setAttr
  split
  · exact lookup_map_update_ne item k k' v h
  · rw [lookup_append_assoc]
    have hk : (k' == k) = false := by simp [h]
    cases hh : List.lookup k' item with
    | none => simp [List.lookup, hk]
    | some w => simp

theorem lookup_update_item_self (table : List (String × PyDict)) (id : String)
    (updates : List (String × PyVal)) :
    List.lookup id (update_item table id updates) =
      Option.some (updates.foldl (fun it kv => setAttr it kv.1 kv.2)
        ((List.lookup id table).getD [("ticket_id", PyVal.str id)])) := by
  unfold update_item
  cases hh : List.lookup id table with
  | some item =>
    simp only [hh]
    exact lookup_map_update table id _ (by simp [hh])
  | none =>
    simp only [hh]
    rw [lookup_append_assoc, hh]
    simp [List.lookup]

theorem lookup_update_item_ne (table : List (String × PyDict)) (id id' : String)
    (updates : List (String × PyVal)) (h : id' ≠ id) :
    List.lookup id' (update_item table id updates) = List.lookup id' table := by
  unfold update_item
  cases hh : List.lookup id table with
  | some item =>
    simp only [hh]
    exact lookup_map_update_ne table id id' _ h
  | none =>
    simp only [hh]
    rw [lookup_append_assoc]
    have hk : (id' == id) = false := by simp [h]
    cases hg : List.lookup id' table with
    | none => simp [List.lookup, hk]
    | some w => simp

/-- C8: `cancel_ticket` returns `False` exactly when the store update
fails and `True` otherwise — with no check that the ticket existed; on a
successful update the addressed record has `status = "cancelled"` and
`updated_at = now`, `cancellation_reason` is set only when a (truthy)
reason is given and is otherwise untouched, every other field of the
record is unchanged, and no other record of the table is touched. -/
theorem c8_cancel_ticket_spec
    (table : List (String × PyDict)) (now : String) (storeOk : Bool)
    (ticket_id : String) (reason : Option String) :
    (cancel_ticket table now storeOk ticket_id reason).1 = storeOk ∧
    (storeOk = false → (cancel_ticket table now storeOk ticket_id reason).2 = table) ∧
    (storeOk = true →
      ∀ item', List.lookup ticket_id (cancel_ticket table now storeOk ticket_id reason).2 =
          Option.some item' →
        List.lookup "status" item' = Option.some (PyVal.str "cancelled") ∧
        List.lookup "updated_at" item' = Option.some (PyVal.str now) ∧
        (pyTruthy reason = true →
          List.lookup "cancellation_reason" item' = Option.some (PyVal.str (reason.getD ""))) ∧
        (pyTruthy reason = false →
          List.lookup "cancellation_reason" item' =
            (List.lookup ticket_id table).bind (fun it => List.lookup "cancellation_reason" it)) ∧
        (∀ k, k ≠ "status" → k ≠ "updated_at" → k ≠ "cancellation_reason" → k ≠ "ticket_id" →
          List.lookup k item' = (List.lookup ticket_id table).bind (fun it => List.lookup k it))) ∧
    (storeOk = true →
      (List.lookup ticket_id (cancel_ticket table now storeOk ticket_id reason).2).isSome = true) ∧
    (∀ id', id' ≠ ticket_id →
      List.lookup id' (cancel_ticket table now storeOk ticket_id reason).2 =
        List.lookup id' table) := by
  have hbase : ∀ k, k ≠ "ticket_id" →
      List.lookup k ((List.lookup ticket_id table).getD [("ticket_id", PyVal.str ticket_id)]) =
        (List.lookup ticket_id table).bind (fun it => List.lookup k it) := by
    intro k hk
    cases hh : List.lookup ticket_id table with
    | some it => simp [hh]
    | none =>
      simp only [hh, Option.getD_none, Option.bind_none]
      have : (k == "ticket_id") = false := by simp [hk]
      simp [List.lookup, this]
  refine ⟨?_, ?_, ?_, ?_, ?_⟩
  · unfold cancel_ticket; cases storeOk <;> simp
  · intro hs; unfold cancel_ticket; simp [hs]
  · intro hs item' hitem
    have hres : (cancel_ticket table now storeOk ticket_id reason).2 =
        update_item table ticket_id
          ([("status", PyVal.str "cancelled"), ("updated_at", PyVal.str now)] ++
            (if pyTruthy reason then [("cancellation_reason", PyVal.str (reason.getD ""))]
             else [])) := by
      unfold cancel_ticket; simp [hs]
    rw [hres, lookup_update_item_self] at hitem
    by_cases hr : pyTruthy reason = true
    · rw [hr] at hitem
      simp only [if_pos rfl, List.foldl] at hitem
      have hitem' : item' =
          setAttr (setAttr (setAttr
              ((List.lookup ticket_id table).getD [("ticket_id", PyVal.str ticket_id)])
              "status" (PyVal.str "cancelled")) "updated_at" (PyVal.str now))
            "cancellation_reason" (PyVal.str (reason.getD "")) := by
        injection hitem.symm
      subst hitem'
      refine ⟨?_, ?_, fun _ => ?_, fun hf => ?_, fun k h1 h2 h3 h4 => ?_⟩
      · rw [lookup_setAttr_ne _ _ _ _ (by decide), lookup_setAttr_ne _ _ _ _ (by decide),
          lookup_setAttr_self]
      · rw [lookup_setAttr_ne _ _ _ _ (by decide), lookup_setAttr_self]
      · rw [lookup_setAttr_self]
      · rw [hr] at hf; exact absurd hf (by simp)
      · rw [lookup_setAttr_ne _ _ _ _ h3, lookup_setAttr_ne _ _ _ _ h2,
          lookup_setAttr_ne _ _ _ _ h1]
        exact hbase k h4
    · have hr' : pyTruthy reason = false := by
        cases hx : pyTruthy reason
        · rfl
        · exact absurd hx hr
      rw [hr'] at hitem
      simp only [Bool.false_eq_true, if_false, List.append_nil, List.foldl] at hitem
      have hitem' : item' =
          setAttr (setAttr
              ((List.lookup ticket_id table).getD [("ticket_id", PyVal.str ticket_id)])
              "status" (PyVal.str "cancelled")) "updated_at" (PyVal.str now) := by
        injection hitem.symm
      subst hitem'
      refine ⟨?_, ?_, fun ht => ?_, fun _ => ?_, fun k h1 h2 h3 h4 => ?_⟩
      · rw [lookup_setAttr_ne _ _ _ _ (by decide), lookup_setAttr_self]
      · rw [lookup_setAttr_self]
      · rw [hr'] at ht; exact absurd ht (by simp)
      · rw [lookup_setAttr_ne _ _ _ _ (by decide), lookup_setAttr_ne _ _ _ _ (by decide)]
        exact hbase "cancellation_reason" (by decide)
      · rw [lookup_setAttr_ne _ _ _ _ h2, lookup_setAttr_ne _ _ _ _ h1]
        exact hbase k h4
  · intro hs
    have hres : (cancel_ticket table now storeOk ticket_id reason).2 =
        update_item table ticket_id
          ([("status", PyVal.str "cancelled"), ("updated_at", PyVal.str now)] ++
            (if pyTruthy reason then [("cancellation_reason", PyVal.str (reason.getD ""))]
             else [])) := by
      unfold cancel_ticket; simp [hs]
    rw [hres, lookup_update_item_self]
    rfl
  · intro id' hid
    unfold cancel_ticket
    cases storeOk with
    | false => simp
    | true => simp [lookup_update_item_ne table ticket_id id' _ hid]

/-- Witness for C8 at a concrete table: cancelling an open ticket with a
reason flips its status, stamps the time, records the reason, preserves
the subject, and reports success. -/
theorem c8_cancel_ticket_spec_witness :
    (cancel_ticket [("t-1", [("ticket_id", PyVal.str "t-1"),
        ("subject", PyVal.str "printer"), ("status", PyVal.str "open"),
        ("updated_at", PyVal.str "T0")])] "T1" true "t-1"
        (Option.some "dup")).1 = true ∧
    List.lookup "status" (setAttr (setAttr (setAttr
        [("ticket_id", PyVal.str "t-1"), ("subject", PyVal.str "printer"),
         ("status", PyVal.str "open"), ("updated_at", PyVal.str "T0")]
        "status" (PyVal.str "cancelled")) "updated_at" (PyVal.str "T1"))
        "cancellation_reason" (PyVal.str "dup")) = Option.some (PyVal.str "cancelled") := by
  have h := c8_cancel_ticket_spec
    [("t-1", [("ticket_id", PyVal.str "t-1"), ("subject", PyVal.str "printer"),
      ("status", PyVal.str "open"), ("updated_at", PyVal.str "T0")])]
    "T1" true "t-1" (Option.some "dup")
  exact ⟨h.1, (h.2.2.1 rfl _ rfl).1⟩

/-- C1 (the failing part): whenever the classified intent is a
`create_ticket` action, `BedrockTicketingAgent.process_request` raises an
uncaught TypeError — its call site passes no `user_id` and no `emergency`
keyword argument while the signature of `TicketingAgent.create_ticket`
requires both — instead of returning the structured
`{success: false, error: reason}` result the claim describes.  The repo's
own `test_create_ticket` calls `create_ticket` without these arguments
and expects a ticket back, so the signature change is a slip in the code. -/
theorem c1_create_ticket_dispatch_raises
    (jp : JParser) (c js : String) (d : PyDict)
    (table : List (String × PyDict)) (ticket_uuid now : String)
    (putOk getOk cancelOk : Bool)
    (hjs : extractJsonSub c = Option.some js) (hp : jp js = Option.some d)
    (hact : dget d "action" = Option.some (PyVal.str "create_ticket")) :
    bedrock_process_request jp (IntentOutcome.content c) table ticket_uuid now
        putOk getOk cancelOk =
      Except.error (PyError.typeError
        "create_ticket() missing required positional arguments: user_id, emergency") := by
  have hdi : determine_intent jp (IntentOutcome.content c) = Except.ok d := by
    simp only [determine_intent, hjs, hp]
  unfold bedrock_process_request
  rw [hdi]
  simp only [hact]
  rfl

/-- Witness for C1: a concrete parsed `create_ticket` intent makes the
dispatch raise. -/
theorem c1_create_ticket_dispatch_raises_witness :
    bedrock_process_request
        (fun s => if s = "\x7b\"action\": \"create_ticket\"\x7d"
          then Option.some [("action", PyVal.str "create_ticket")] else Option.none)
        (IntentOutcome.content "\x7b\"action\": \"create_ticket\"\x7d")
        [] "uuid-1" "T0" true true true =
      Except.error (PyError.typeError
        "create_ticket() missing required positional arguments: user_id, emergency") :=
  c1_create_ticket_dispatch_raises
    (fun s => if s = "\x7b\"action\": \"create_ticket\"\x7d"
      then Option.some [("action", PyVal.str "create_ticket")] else Option.none)
    "\x7b\"action\": \"create_ticket\"\x7d" "\x7b\"action\": \"create_ticket\"\x7d"
    [("action", PyVal.str "create_ticket")] [] "uuid-1" "T0" true true true
    (by decide) (by simp) rfl

/-- C2 counterexample: a request containing the keyword `fire` whose
evaluator deterministically reports `is_emergency = true`,
`severity = "critical"` makes the router publish the emergency
notification **twice** — once inside the pre-check evaluation and once
more inside `handle_emergency_request`, which re-evaluates — not exactly
once as claimed. -/
theorem c2_critical_publish_count_two :
    publishCount (multi_process_request
      { agent_id := Option.some "a", agent_alias_id := Option.some "b",
        sns_topic_arn := Option.some "arn:sns:alerts", now := "T0",
        evalOutcome1 := EvalOutcome.parsed ⟨true, "critical", ["evacuate"], "fire"⟩,
        evalOutcome2 := EvalOutcome.parsed ⟨true, "critical", ["evacuate"], "fire"⟩,
        supOutcome := Except.error "unused", jp := fun _ => Option.none,
        intentOutcome := IntentOutcome.content "", table := [], ticket_uuid := "u",
        putOk := true, getOk := true, cancelOk := true,
        listing := S3Listing.noContents, synth := Except.error "e" }
      "fire in the server room" Option.none).2 = 2 := by
  decide

/-- C2 amended: the publish happens exactly once **per
`evaluate_emergency` call**, to the configured topic and with a subject
containing "EMERGENCY ALERT"; since the router's pre-check path evaluates
once in the pre-check and `handle_emergency_request` evaluates a second
time, such a request publishes exactly twice. -/
theorem c2_escalation_publishes_per_evaluation
    (topic : String) (htopic : topic ≠ "") (now message : String) (ev : Evaluation)
    (hem : ev.is_emergency = true)
    (hsev : ev.severity = "high" ∨ ev.severity = "critical") :
    (publishCount (evaluate_emergency (Option.some topic) now message
        (EvalOutcome.parsed ev)).2 = 1 ∧
      ∀ t subj m, Event.snsPublish t subj m ∈
          (evaluate_emergency (Option.some topic) now message (EvalOutcome.parsed ev)).2 →
        t = topic ∧ containsSub subj "EMERGENCY ALERT" = true) ∧
    (∀ env user_input sid,
      env.sns_topic_arn = Option.some topic →
      env.evalOutcome1 = EvalOutcome.parsed ev →
      env.evalOutcome2 = EvalOutcome.parsed ev →
      hasEmergencyKeyword user_input = true →
      publishCount (multi_process_request env user_input sid).2 = 2) := by
  have hcond : (ev.is_emergency && ["high", "critical"].contains ev.severity) = true := by
    rcases hsev with h | h <;> simp [hem, h, List.contains]
  have htop : pyTruthy (Option.some topic) = true := by
    simp [pyTruthy, htopic]
  have hev : ∀ n m, evaluate_emergency (Option.some topic) n m (EvalOutcome.parsed ev) =
      (ev, [Event.evalEmergency m,
        Event.snsPublish topic ("EMERGENCY ALERT - " ++ ev.severity ++ " severity")
          [("timestamp", PyVal.str n), ("original_message", PyVal.str m),
           ("severity", PyVal.str ev.severity),
           ("recommended_actions", PyVal.list (ev.recommended_actions.map PyVal.str)),
           ("reasoning", PyVal.str ev.reasoning)]]) := by
    intro n m
    have h1 : evaluate_emergency (Option.some topic) n m (EvalOutcome.parsed ev) =
        (ev, Event.evalEmergency m :: escalate_emergency (Option.some topic) n m ev) := by
      simp only [evaluate_emergency]
      rw [if_pos hcond]
    have h2 : escalate_emergency (Option.some topic) n m ev =
        [Event.snsPublish topic ("EMERGENCY ALERT - " ++ ev.severity ++ " severity")
          [("timestamp", PyVal.str n), ("original_message", PyVal.str m),
           ("severity", PyVal.str ev.severity),
           ("recommended_actions", PyVal.list (ev.recommended_actions.map PyVal.str)),
           ("reasoning", PyVal.str ev.reasoning)]] := by
      unfold escalate_emergency
      rw [if_pos htop]
      rfl
    rw [h1, h2]
  have hcat : ("EMERGENCY ALERT".toList : List Char) ++ " - ".toList =
      "EMERGENCY ALERT - ".toList := by decide
  constructor
  · constructor
    · rw [hev now message]
      simp [publishCount, isPublish]
    · intro t subj m hmem
      rw [hev now message] at hmem
      simp only [List.mem_cons, List.mem_singleton] at hmem
      rcases hmem with h | h | h
      · exact absurd h (by simp)
      · have ht : t = topic := by injection h
        have hsubj : subj = "EMERGENCY ALERT - " ++ ev.severity ++ " severity" := by
          cases h; rfl
        subst ht; subst hsubj
        refine ⟨rfl, ?_⟩
        have hpre : ("EMERGENCY ALERT".toList : List Char) <+:
            ("EMERGENCY ALERT - " ++ ev.severity ++ " severity").toList := by
          refine ⟨" - ".toList ++ ev.severity.toList ++ " severity".toList, ?_⟩
          simp [String.toList, ← hcat]
        simpa [containsSub] using hpre.isInfix
      · simp at h
  · intro env user_input sid h1 h2 h3 hkw
    have hhandle2 : ∀ t n m o,
        (handle_emergency_request t n m o).2 = (evaluate_emergency t n m o).2 := fun _ _ _ _ => rfl
    unfold multi_process_request
    rw [hkw, if_pos rfl, h1, h2, h3]
    rw [hhandle2, hev env.now user_input]
    simp only [hem, if_pos rfl]
    simp [publishCount, isPublish, List.filter_append]

/-- Witness for C2's amended statement at a concrete critical emergency. -/
theorem c2_escalation_publishes_per_evaluation_witness :
    publishCount (evaluate_emergency (Option.some "arn:sns:alerts") "T0" "fire drill"
      (EvalOutcome.parsed ⟨true, "critical", ["go"], "r"⟩)).2 = 1 :=
  (c2_escalation_publishes_per_evaluation "arn:sns:alerts" (by decide) "T0" "fire drill"
    ⟨true, "critical", ["go"], "r"⟩ rfl (Or.inr rfl)).1.1

/-- The supervisor-dispatch path either records no event (missing agent
identifiers raise before the transport call) or begins with the
supervisor-invocation event. -/
theorem invoke_agent_cases (aid aal : Option String) (o : Except String SupRaw)
    (ui : String) (sid : Option String) :
    (∃ e, invoke_agent aid aal o ui sid = (Except.error e, [])) ∨
    (∃ r, invoke_agent aid aal o ui sid = (Except.ok r, [Event.supervisorInvoke ui])) := by
  unfold invoke_agent
  split
  · exact Or.inl ⟨_, rfl⟩
  · cases o with
    | ok raw => exact Or.inr ⟨_, rfl⟩
    | error e => exact Or.inr ⟨_, rfl⟩

theorem route_events_cases (env : Env) (ne : EvalOutcome) (ui : String)
    (sid : Option String) :
    (route_via_supervisor env ne ui sid).2 = [] ∨
    ∃ tail, (route_via_supervisor env ne ui sid).2 = Event.supervisorInvoke ui :: tail := by
  unfold route_via_supervisor
  rcases invoke_agent_cases env.agent_id env.agent_alias_id env.supOutcome ui sid with
    ⟨e, hI⟩ | ⟨r, hI⟩
  · rw [hI]
    left
    rfl
  · rw [hI]
    right
    dsimp only
    split
    · exact ⟨[], rfl⟩
    split
    · exact ⟨_, rfl⟩
    split
    · exact ⟨_, rfl⟩
    · exact ⟨[], rfl⟩

/-- C10: the router's emergency pre-check tests whether any of the seven
fixed keywords occurs as a **substring** of the lowercased input (so a
keyword inside a longer word, like `help` in `helpful`, fires it); when
some keyword occurs, the emergency evaluator is consulted before any
supervisor call (the request's event trace begins with the evaluator
event), and when none occurs the pre-check never calls the evaluator (no
evaluator event precedes the first supervisor invocation). -/
theorem c10_emergency_precheck_substring
    (env : Env) (user_input : String) (sid : Option String) :
    (hasEmergencyKeyword user_input = true ↔
      ∃ kw ∈ emergency_keywords, kw.toList <:+: (pyLower user_input).toList) ∧
    (hasEmergencyKeyword user_input = true →
      ∃ rest, (multi_process_request env user_input sid).2 =
        Event.evalEmergency user_input :: rest) ∧
    (hasEmergencyKeyword user_input = false →
      ∀ e ∈ (multi_process_request env user_input sid).2.takeWhile
          (fun ev => !isSupervisorInvoke ev),
        isEvalEmergency e = false) := by
  refine ⟨?_, ?_, ?_⟩
  · simp [hasEmergencyKeyword, containsSub, List.any_eq_true]
  · intro h
    unfold multi_process_request
    rw [h, if_pos rfl]
    obtain ⟨tl, htl⟩ := evaluate_emergency_events_head env.sns_topic_arn env.now user_input
      env.evalOutcome1
    split
    · exact ⟨tl ++ (handle_emergency_request env.sns_topic_arn env.now user_input
        env.evalOutcome2).2, by rw [htl]; simp⟩
    · exact ⟨tl ++ (route_via_supervisor env env.evalOutcome2 user_input sid).2,
        by rw [htl]; simp⟩
  · intro h e he
    have hmr : (multi_process_request env user_input sid).2 =
        (route_via_supervisor env env.evalOutcome1 user_input sid).2 := by
      unfold multi_process_request
      rw [h]
      simp
    rw [hmr] at he
    rcases route_events_cases env env.evalOutcome1 user_input sid with hc | ⟨tail, hc⟩
    · rw [hc] at he
      simp at he
    · rw [hc] at he
      simp [List.takeWhile_cons, isSupervisorInvoke] at he

/-- Witness for C10: `help` occurring only inside `helpful` still fires
the pre-check, so the trace starts with the evaluator event. -/
theorem c10_emergency_precheck_substring_witness :
    hasEmergencyKeyword "our staff are helpful" = true ∧
    ∃ rest, (multi_process_request
      { agent_id := Option.some "a", agent_alias_id := Option.some "b",
        sns_topic_arn := Option.none, now := "T0",
        evalOutcome1 := EvalOutcome.noJson, evalOutcome2 := EvalOutcome.noJson,
        supOutcome := Except.error "down", jp := fun _ => Option.none,
        intentOutcome := IntentOutcome.content "", table := [], ticket_uuid := "u",
        putOk := true, getOk := true, cancelOk := true,
        listing := S3Listing.noContents, synth := Except.error "e" }
      "our staff are helpful" Option.none).2 =
      Event.evalEmergency "our staff are helpful" :: rest :=
  ⟨by decide,
   (c10_emergency_precheck_substring
     { agent_id := Option.some "a", agent_alias_id := Option.some "b",
       sns_topic_arn := Option.none, now := "T0",
       evalOutcome1 := EvalOutcome.noJson, evalOutcome2 := EvalOutcome.noJson,
       supOutcome := Except.error "down", jp := fun _ => Option.none,
       intentOutcome := IntentOutcome.content "", table := [], ticket_uuid := "u",
       putOk := true, getOk := true, cancelOk := true,
       listing := S3Listing.noContents, synth := Except.error "e" }
     "our staff are helpful" Option.none).2.1 (by decide)⟩

/-- The message loop of `_extract_routing_decision` equals the spec-side
reading: the first structured agent object wins immediately, otherwise
the last matching keyword fragment, defaulting to the threaded value. -/
theorem routingGo_eq (jp : JParser) : ∀ (msgs : List PyDict) (dec : String),
    routingGo jp dec msgs =
      match firstStructured jp msgs with
      | Option.some obj => obj
      | Option.none => [("agent", PyVal.str ((lastKw msgs).getD dec))] := by
  intro msgs
  induction msgs with
  | nil => intro dec; rfl
  | cons m rest ih =>
    intro dec
    cases hs : structuredAgentOf jp (getContent m) with
    | some obj =>
      simp [routingGo, firstStructured, hs]
    | none =>
      simp only [routingGo, firstStructured, lastKw, hs]
      rw [ih]
      cases hf : firstStructured jp rest with
      | some obj => simp [hf]
      | none =>
        simp only [hf]
        cases hl : lastKw rest with
        | some g => simp [hl]
        | none =>
          simp only [hl, Option.getD]
          unfold kwOf
          split
          · rfl
          split
          · rfl
          split
          · rfl
          · rfl

/-- C9: extracting the routing decision from a supervisor reply follows
the priority: a structured JSON object with an `agent` key in a fragment
wins immediately; otherwise keyword matching is applied per fragment with
the **last** matching fragment winning (sequential overwrite); and when
the fragments contain no structured agent object and no
ticket/faq/emergency keyword signal, the decision defaults to
`supervisor` and the router returns a passthrough of the supervisor's own
reply text plus the session identifier. -/
theorem c9_routing_decision
    (jp : JParser) (sup : SupResponse) (env : Env) (user_input : String)
    (sid : Option String) :
    (extract_routing_decision jp sup =
      match firstStructured jp sup.messages with
      | Option.some obj => obj
      | Option.none => [("agent", PyVal.str ((lastKw sup.messages).getD "supervisor"))]) ∧
    (hasEmergencyKeyword user_input = false →
      pyTruthy env.agent_id = true →
      pyTruthy env.agent_alias_id = true →
      ∀ raw, env.supOutcome = Except.ok raw →
      firstStructured env.jp raw.messages = Option.none →
      lastKw raw.messages = Option.none →
      multi_process_request env user_input sid =
        (Except.ok
          [("response", PyVal.str (extract_supervisor_message
              ⟨raw.messages, raw.sessionId, Option.none⟩)),
           ("session_id", match raw.sessionId with
                          | Option.some s => PyVal.str s
                          | Option.none => PyVal.pynone)],
         [Event.supervisorInvoke user_input])) := by
  constructor
  · exact routingGo_eq jp sup.messages "supervisor"
  · intro hkw hid halias raw hraw hfs hlk
    have hmr : multi_process_request env user_input sid =
        route_via_supervisor env env.evalOutcome1 user_input sid := by
      unfold multi_process_request
      rw [hkw]
      simp
    rw [hmr]
    have hI : invoke_agent env.agent_id env.agent_alias_id env.supOutcome user_input sid =
        (Except.ok ⟨raw.messages, raw.sessionId, Option.none⟩,
          [Event.supervisorInvoke user_input]) := by
      unfold invoke_agent
      rw [if_neg (by simp [hid, halias]), hraw]
    have hdec : extract_routing_decision env.jp ⟨raw.messages, raw.sessionId, Option.none⟩ =
        [("agent", PyVal.str "supervisor")] := by
      unfold extract_routing_decision
      rw [routingGo_eq]
      simp only [hfs, hlk]
      rfl
    unfold route_via_supervisor
    rw [hI]
    dsimp only
    rw [hdec]
    rfl

/-- Witness for C9: a reply fragment with no structured object and no
keyword signal routes to the supervisor passthrough. -/
theorem c9_routing_decision_witness :
    multi_process_request
      { agent_id := Option.some "a", agent_alias_id := Option.some "b",
        sns_topic_arn := Option.none, now := "T0",
        evalOutcome1 := EvalOutcome.noJson, evalOutcome2 := EvalOutcome.noJson,
        supOutcome := Except.ok ⟨[[("content", PyVal.str "hello there")]], Option.some "sess-1"⟩,
        jp := fun _ => Option.none,
        intentOutcome := IntentOutcome.content "", table := [], ticket_uuid := "u",
        putOk := true, getOk := true, cancelOk := true,
        listing := S3Listing.noContents, synth := Except.error "e" }
      "good morning" Option.none =
      (Except.ok
        [("response", PyVal.str "hello there"), ("session_id", PyVal.str "sess-1")],
       [Event.supervisorInvoke "good morning"]) :=
  (c9_routing_decision (fun _ => Option.none)
    { messages := [], sessionId := Option.none, error := Option.none }
    { agent_id := Option.some "a", agent_alias_id := Option.some "b",
      sns_topic_arn := Option.none, now := "T0",
      evalOutcome1 := EvalOutcome.noJson, evalOutcome2 := EvalOutcome.noJson,
      supOutcome := Except.ok ⟨[[("content", PyVal.str "hello there")]], Option.some "sess-1"⟩,
      jp := fun _ => Option.none,
      intentOutcome := IntentOutcome.content "", table := [], ticket_uuid := "u",
      putOk := true, getOk := true, cancelOk := true,
      listing := S3Listing.noContents, synth := Except.error "e" }
    "good morning" Option.none).2
    (by decide) rfl rfl
    ⟨[[("content", PyVal.str "hello there")]], Option.some "sess-1"⟩
    rfl rfl rfl

/-! ### Sorting lemmas for the retrieval ranking -/

theorem length_insertByRel (x : DocMatch) (l : List DocMatch) :
    (insertByRel x l).length = l.length + 1 := by
  induction l with
  | nil => rfl
  | cons y ys ih =>
    unfold insertByRel
    by_cases hgt : y.relevance > x.relevance
    · rw [if_pos hgt]
      simp [ih]
    · rw [if_neg hgt]
      simp

theorem mem_insertByRel (x z : DocMatch) (l : List DocMatch) :
    z ∈ insertByRel x l ↔ z = x ∨ z ∈ l := by
  induction l with
  | nil => simp [insertByRel]
  | cons y ys ih =>
    unfold insertByRel
    by_cases hgt : y.relevance > x.relevance
    · rw [if_pos hgt]
      rw [List.mem_cons, ih, List.mem_cons]
      tauto
    · rw [if_neg hgt]
      rw [List.mem_cons]

theorem pairwise_insertByRel (x : DocMatch) (l : List DocMatch)
    (h : l.Pairwise (fun a b => b.relevance ≤ a.relevance)) :
    (insertByRel x l).Pairwise (fun a b => b.relevance ≤ a.relevance) := by
  induction l with
  | nil => simp [insertByRel]
  | cons y ys ih =>
    rw [List.pairwise_cons] at h
    obtain ⟨hy, hys⟩ := h
    unfold insertByRel
    by_cases hgt : y.relevance > x.relevance
    · rw [if_pos hgt]
      rw [List.pairwise_cons]
      refine ⟨?_, ih hys⟩
      intro z hz
      rcases (mem_insertByRel x z ys).1 hz with rfl | hz'
      · omega
      · exact hy z hz'
    · rw [if_neg hgt]
      rw [List.pairwise_cons]
      refine ⟨?_, List.pairwise_cons.mpr ⟨hy, hys⟩⟩
      intro z hz
      rcases List.mem_cons.mp hz with rfl | hz'
      · omega
      · have := hy z hz'
        omega

theorem filter_insertByRel (x : DocMatch) (l : List DocMatch) (r : Nat) :
    (insertByRel x l).filter (fun d => d.relevance == r) =
      if x.relevance = r then x :: l.filter (fun d => d.relevance == r)
      else l.filter (fun d => d.relevance == r) := by
  induction l with
  | nil =>
    by_cases h : x.relevance = r <;> simp [insertByRel, h]
  | cons y ys ih =>
    unfold insertByRel
    by_cases hgt : y.relevance > x.relevance
    · rw [if_pos hgt]
      by_cases hyr : y.relevance = r
      · have hxr : x.relevance ≠ r := by omega
        rw [if_neg hxr] at ih ⊢
        simp [List.filter_cons, hyr, ih]
      · by_cases hxr : x.relevance = r
        · rw [if_pos hxr] at ih ⊢
          simp [List.filter_cons, hyr, ih]
        · rw [if_neg hxr] at ih ⊢
          simp [List.filter_cons, hyr, ih]
    · rw [if_neg hgt]
      by_cases hxr : x.relevance = r
      · rw [if_pos hxr]
        simp [List.filter_cons, hxr]
      · rw [if_neg hxr]
        simp [List.filter_cons, hxr]

theorem length_sortByRelDesc (l : List DocMatch) :
    (sortByRelDesc l).length = l.length := by
  induction l with
  | nil => rfl
  | cons x xs ih => simp [sortByRelDesc, length_insertByRel, ih]

theorem mem_sortByRelDesc (z : DocMatch) (l : List DocMatch) :
    z ∈ sortByRelDesc l ↔ z ∈ l := by
  induction l with
  | nil => simp [sortByRelDesc]
  | cons x xs ih => simp [sortByRelDesc, mem_insertByRel, ih]

theorem sorted_sortByRelDesc (l : List DocMatch) :
    (sortByRelDesc l).Pairwise (fun a b => b.relevance ≤ a.relevance) := by
  induction l with
  | nil => simp [sortByRelDesc]
  | cons x xs ih => exact pairwise_insertByRel x _ ih

theorem filter_sortByRelDesc (l : List DocMatch) (r : Nat) :
    (sortByRelDesc l).filter (fun d => d.relevance == r) =
      l.filter (fun d => d.relevance == r) := by
  induction l with
  | nil => rfl
  | cons x xs ih =>
    simp only [sortByRelDesc]
    rw [filter_insertByRel]
    by_cases hx : x.relevance = r
    · rw [if_pos hx, ih, List.filter_cons]
      simp [hx]
    · rw [if_neg hx, ih, List.filter_cons]
      simp [hx]

/-- The retrieval loop collects exactly the first `max_docs - acc.length`
spec-side candidates, in listing order, after the already-collected
accumulator. -/
theorem retrieveLoop_eq (query : String) (max_docs : Nat) :
    ∀ (objs : List (String × String)) (acc : List DocMatch), acc.length ≤ max_docs →
      retrieveLoop (termSet query) max_docs objs acc =
        acc ++ (retrieveCandidates query objs).take (max_docs - acc.length) := by
  intro objs
  induction objs with
  | nil =>
    intro acc h
    simp [retrieveLoop, retrieveCandidates]
  | cons o rest ih =>
    intro acc hle
    obtain ⟨key, body⟩ := o
    unfold retrieveLoop
    by_cases hfull : acc.length ≥ max_docs
    · rw [if_pos hfull]
      have h0 : max_docs - acc.length = 0 := by omega
      simp [h0]
    · rw [if_neg hfull]
      have hlt : acc.length < max_docs := by omega
      by_cases hext : allowedExt key
      · rw [if_neg (by simp [hext])]
        by_cases hov : ((termSet query).filter
            (fun t => (termSet body).contains t)).length > 0
        · rw [if_pos hov]
          have hacc1 : (acc ++ [(⟨body, key,
              ((termSet query).filter (fun t => (termSet body).contains t)).length⟩ :
                DocMatch)]).length ≤ max_docs := by
            rw [List.length_append, List.length_singleton]
            omega
          rw [ih _ hacc1, List.length_append, List.length_singleton]
          have hcand : retrieveCandidates query ((key, body) :: rest) =
              (⟨body, key, overlapCount query body⟩ : DocMatch) ::
                retrieveCandidates query rest := by
            unfold retrieveCandidates
            rw [List.filter_cons]
            have hk : (allowedExt key && decide (0 < overlapCount query body)) = true := by
              rw [hext, Bool.true_and, decide_eq_true_eq]
              exact hov
            rw [if_pos hk]
            rfl
          rw [hcand]
          have hm : max_docs - acc.length = (max_docs - (acc.length + 1)) + 1 := by omega
          rw [hm, List.take_succ_cons]
          rw [List.append_assoc]
          rfl
        · rw [if_neg hov]
          rw [ih acc hle]
          have hcand : retrieveCandidates query ((key, body) :: rest) =
              retrieveCandidates query rest := by
            unfold retrieveCandidates
            rw [List.filter_cons]
            have hk : (allowedExt key && decide (0 < overlapCount query body)) = false := by
              rw [hext, Bool.true_and, decide_eq_false_iff_not]
              exact hov
            rw [hk]
            simp
          rw [hcand]
      · rw [if_pos (by simp [hext])]
        rw [ih acc hle]
        have hcand : retrieveCandidates query ((key, body) :: rest) =
            retrieveCandidates query rest := by
          unfold retrieveCandidates
          rw [List.filter_cons]
          have hk : (allowedExt key && decide (0 < overlapCount query body)) = false := by
            have hf : allowedExt key = false := by
              cases hx : allowedExt key
              · rfl
              · exact absurd hx hext
            rw [hf, Bool.false_and]
          rw [hk]
          simp
        rw [hcand]

/-- C7: retrieval computes each kept document's relevance as the size of
the set intersection of lowercase whitespace-tokenized query and document
terms, keeps only `.txt`/`.md`/`.json` documents with relevance greater
than zero, stops fetching once `max_docs` candidates are collected in
listing order (so the source loop equals the spec-side
take-after-filter), and returns at most `max_docs` results sorted by
relevance descending with ties kept in the original enumeration order
(the subsequence at any fixed relevance is unchanged).  The `max_docs`
parameter defaults to 3 in the definition, as in the source. -/
theorem c7_retrieval_spec (query : String) (objs : List (String × String))
    (max_docs : Nat) :
    (retrieve_relevant_documents (S3Listing.contents objs) query max_docs =
      retrieveSpec query objs max_docs) ∧
    (retrieve_relevant_documents (S3Listing.contents objs) query max_docs).length ≤
      max_docs ∧
    (∀ d ∈ retrieve_relevant_documents (S3Listing.contents objs) query max_docs,
      d.relevance = overlapCount query d.content ∧ 0 < d.relevance ∧
        allowedExt d.source = true) ∧
    (retrieve_relevant_documents (S3Listing.contents objs) query max_docs).Pairwise
      (fun a b => b.relevance ≤ a.relevance) ∧
    (∀ r, (retrieve_relevant_documents (S3Listing.contents objs) query max_docs).filter
        (fun d => d.relevance == r) =
      ((retrieveCandidates query objs).take max_docs).filter
        (fun d => d.relevance == r)) := by
  have hloop : retrieveLoop (termSet query) max_docs objs [] =
      (retrieveCandidates query objs).take max_docs := by
    have h := retrieveLoop_eq query max_docs objs [] (by simp)
    simpa using h
  have hlen : ((retrieveCandidates query objs).take max_docs).length ≤ max_docs := by
    simpa using List.length_take_le max_docs (retrieveCandidates query objs)
  have hsortlen :
      (sortByRelDesc ((retrieveCandidates query objs).take max_docs)).length ≤ max_docs := by
    rw [length_sortByRelDesc]
    exact hlen
  have hmain : retrieve_relevant_documents (S3Listing.contents objs) query max_docs =
      retrieveSpec query objs max_docs := by
    show (sortByRelDesc (retrieveLoop (termSet query) max_docs objs [])).take max_docs =
      retrieveSpec query objs max_docs
    rw [hloop]
    exact List.take_of_length_le hsortlen
  refine ⟨hmain, ?_, ?_, ?_, ?_⟩
  · rw [hmain]
    exact hsortlen
  · intro d hd
    rw [hmain] at hd
    unfold retrieveSpec at hd
    rw [mem_sortByRelDesc] at hd
    have hd' : d ∈ retrieveCandidates query objs := List.mem_of_mem_take hd
    unfold retrieveCandidates at hd'
    rw [List.mem_map] at hd'
    obtain ⟨o, ho, rfl⟩ := hd'
    rw [List.mem_filter] at ho
    obtain ⟨_, hkeep⟩ := ho
    simp only [Bool.and_eq_true, decide_eq_true_eq] at hkeep
    exact ⟨rfl, hkeep.2, hkeep.1⟩
  · rw [hmain]
    unfold retrieveSpec
    exact sorted_sortByRelDesc _
  · intro r
    rw [hmain]
    unfold retrieveSpec
    rw [filter_sortByRelDesc]

/-- Witness for C7 at a concrete corpus: the returned document's
relevance is the query/document term overlap, positive, with an allowed
extension. -/
theorem c7_retrieval_spec_witness :
    (⟨"refund policy terms", "kb/a.txt", 2⟩ : DocMatch).relevance =
        overlapCount "refund policy" (⟨"refund policy terms", "kb/a.txt", 2⟩ : DocMatch).content ∧
      0 < (⟨"refund policy terms", "kb/a.txt", 2⟩ : DocMatch).relevance ∧
      allowedExt (⟨"refund policy terms", "kb/a.txt", 2⟩ : DocMatch).source = true :=
  (c7_retrieval_spec "refund policy" [("kb/a.txt", "refund policy terms")] 3).2.2.1
    ⟨"refund policy terms", "kb/a.txt", 2⟩ (by decide)

end Zoozoo
